import Mathlib

/-!
Shallow embedding of the request-dispatch and database-execution layer of
`src/server.py` (an MCP gateway in front of an openGauss/PostgreSQL database,
driven through psycopg2).

Modelling conventions:

* The process environment is a record of the five `OPENGAUSS_*` variables,
  each `Option String` (`none` = variable absent).
* Python truthiness of an optional string (`None` and `""` are falsy) is
  `truthy`.
* `int(s)` on the port string is `pyIntParse` (sign + decimal digits after
  stripping whitespace); on failure Python raises `ValueError`, modelled as
  `PyErr.valueError` (Python additionally quotes the offending literal in its
  message; the quotes are elided here, no claim depends on that message).
* The psycopg2 driver is modelled by its observable responses: for a handler
  that runs one statement, a `Db1 ρ` gives the outcome of `connect(**config)`
  (`some msg` = the driver raised `psycopg2.Error` with message `msg`) and the
  outcome of `cursor.execute(...)` together with `cursor.description`,
  `fetchall()` and `cursor.rowcount`.  Row tuples are given at the arity the
  statement produces (`ρ`); cell values stand for their Python `str()` images.
* Connection lifecycle is recorded as a trace of `ConnEvent`s.  Per the
  psycopg2 semantics of `with connect(...) as conn:` — the context manager
  commits the transaction on normal block exit and rolls it back when the
  block raises, but it does NOT close the connection — the traces contain
  `.connect`, `.commit` and `.rollback` events exactly where the driver
  performs them, and a `.close` event would appear only if the code called
  `conn.close()` (it never does).
* A Python handler either returns a string or raises; each handler is
  therefore `PEnv → ... → Except PyErr String × List ConnEvent`.
* The Python string primitives the source uses (`str.strip`, `str.upper`,
  `str.startswith`, `str.join`, `int(...)`) are defined below by structural
  recursion over character lists, so every handler is executable by `decide`
  on concrete inputs.
-/

deriving instance DecidableEq for Except

/-- The whitespace characters stripped by Python `str.strip()` (for the
ASCII range relevant here). -/
def isSpaceChar (c : Char) : Bool :=
  c == ' ' || c == '\t' || c == '\n' || c == '\r' || c == '\x0b' || c == '\x0c'

/-- Python `str.strip()` on a character list: drop whitespace from both
ends. -/
def pyStripList (cs : List Char) : List Char :=
  (((cs.dropWhile isSpaceChar).reverse).dropWhile isSpaceChar).reverse

/-- Python `s.strip()`. -/
def pyStrip (s : String) : String := String.mk (pyStripList s.data)

/-- ASCII upper-casing of one character (Python `str.upper()` restricted to
ASCII, which covers the SQL keywords at issue). -/
def pyUpperChar (c : Char) : Char :=
  if c.toNat ≥ 97 && c.toNat ≤ 122 then Char.ofNat (c.toNat - 32) else c

/-- Python `s.upper()`. -/
def pyUpper (s : String) : String := String.mk (s.data.map pyUpperChar)

/-- Whether the first list is a prefix of the second. -/
def leadsWith : List Char → List Char → Bool
  | [], _ => true
  | _ :: _, [] => false
  | p :: ps, c :: cs => p == c && leadsWith ps cs

/-- Python `s.startswith(p)`. -/
def pyStartsWith (s p : String) : Bool := leadsWith p.data s.data

/-- Accumulate decimal digits; any non-digit character fails. -/
def digitsCore : List Char → Nat → Option Nat
  | [], acc => some acc
  | c :: cs, acc =>
      if c.isDigit then digitsCore cs (acc * 10 + (c.toNat - 48)) else none

/-- Parse a non-empty all-digit character list. -/
def parseDigits (cs : List Char) : Option Nat :=
  match cs with
  | [] => none
  | _ => digitsCore cs 0

/-- Python `sep.join(xs)`. -/
def joinWith (sep : String) : List String → String
  | [] => ""
  | [a] => a
  | a :: b :: rest => a ++ sep ++ joinWith sep (b :: rest)

/-- Process environment: the five `OPENGAUSS_*` variables read by
`get_db_config` (src/server.py lines 17-29); `none` means the variable is
absent from the environment. -/
structure PEnv where
  opengauss_host : Option String
  opengauss_port : Option String
  opengauss_user : Option String
  opengauss_password : Option String
  opengauss_dbname : Option String
deriving DecidableEq

/-- The resolved database configuration dict built by `get_db_config`. -/
structure DbConfig where
  host : String
  port : Int
  user : String
  password : String
  dbname : String
deriving DecidableEq

/-- Python exceptions that can escape the handlers: `ValueError` (from
`get_db_config` or `int()`), `RuntimeError` (the wrapper raised in the
`except Error` clauses), `TypeError` (subscripting `None` from `fetchone`). -/
inductive PyErr where
  | valueError (msg : String)
  | runtimeError (msg : String)
  | typeError (msg : String)
deriving DecidableEq

/-- Observable connection-lifecycle events of one handler invocation.
`connect` is the call to `psycopg2.connect(**config)`; `commit` and
`rollback` are issued on the connection (explicitly or by the context
manager's exit); `close` would be `conn.close()` — the source never emits
it. -/
inductive ConnEvent where
  | connect
  | commit
  | rollback
  | close
deriving DecidableEq

/-- Python truthiness of an optional string: `None` and `""` are falsy,
all other strings truthy (this is what `all([user, password, dbname])`
tests in `get_db_config`). -/
def truthy : Option String → Bool
  | none => false
  | some s => !s.data.isEmpty

/-- Python `int(s)`: strip surrounding whitespace, accept an optional sign
followed by decimal digits; everything else raises `ValueError`.  (Python
also accepts underscore digit separators and non-ASCII digits; those are
out of scope for the port strings considered here.) -/
def pyIntParse (s : String) : Option Int :=
  match pyStripList s.data with
  | '-' :: cs => (parseDigits cs).map (fun n => -(n : Int))
  | '+' :: cs => (parseDigits cs).map (fun n => (n : Int))
  | cs => (parseDigits cs).map (fun n => (n : Int))

/-- `get_db_config` (src/server.py lines 17-29): builds the configuration
dict from the environment — which evaluates `int(port-string)` first, so a
malformed port raises its own `ValueError` before the completeness check —
then raises `ValueError("Missing required database configuration")` unless
user, password and dbname are all truthy. -/
def get_db_config (env : PEnv) : Except PyErr DbConfig :=
  match pyIntParse (env.opengauss_port.getD "5432") with
  | none =>
      .error (.valueError ("invalid literal for int() with base 10: " ++
        env.opengauss_port.getD "5432"))
  | some port =>
      if truthy env.opengauss_user && truthy env.opengauss_password &&
         truthy env.opengauss_dbname then
        .ok ⟨env.opengauss_host.getD "localhost", port,
             env.opengauss_user.getD "", env.opengauss_password.getD "",
             env.opengauss_dbname.getD ""⟩
      else
        .error (.valueError "Missing required database configuration")

/-- Driver outcome of `cursor.execute(...)` followed by the fetches the
handler performs: either success — with `cursor.description` column names,
the fetched row tuples (at arity `ρ`), and `cursor.rowcount` — or a raised
`psycopg2.Error` carrying message `msg`. -/
inductive DbResp (ρ : Type) where
  | ok (columns : List String) (rows : List ρ) (rowcount : Int)
  | err (msg : String)
deriving DecidableEq

/-- Driver behaviour for a handler that opens one connection and runs one
statement: outcome of `connect(**config)` (`some msg` = `psycopg2.Error`
raised with message `msg`) and of the statement. -/
structure Db1 (ρ : Type) where
  connect : Option String
  exec : DbResp ρ
deriving DecidableEq

/-- One row of the `information_schema.columns` query (a 5-tuple; each
field stands for the `str()` image interpolated by the f-string). -/
structure ColDef where
  column_name : String
  data_type : String
  column_default : String
  is_nullable : String
  ordinal_position : String
deriving DecidableEq

/-- Driver behaviour for `get_table_definitions`, which first lists the
tables of the current schema and then runs one column query per table name. -/
structure DbDefs where
  connect : Option String
  execTables : DbResp String
  execCols : String → DbResp ColDef

/-- Python `",".join(xs)`. -/
def commaJoin (xs : List String) : String := joinWith "," xs

/-- The literal column-metadata header row appended by both table-definition
handlers (src/server.py lines 106 and 173). -/
def colHeader : String :=
  "column_name, data_type, column_default, is_nullable, ordinal_position"

/-- The per-column line `f"{col[0]},{col[1]},{col[2]},{col[3]},{col[4]}"`. -/
def colDefLine (c : ColDef) : String :=
  c.column_name ++ "," ++ c.data_type ++ "," ++ c.column_default ++ "," ++
    c.is_nullable ++ "," ++ c.ordinal_position

/-- The shared handler template of the five single-statement handlers that
re-raise driver errors (src/server.py: the `config = get_db_config()` /
`try: with connect(**config) as conn: with conn.cursor() as cursor: ...`
/ `except Error as e: raise RuntimeError(f"Database error: {str(e)}")`
skeleton).  `body` is the fetch-and-format code of the individual handler;
when `body` itself raises (only `get_current_user_and_schema` can, with a
`TypeError`), the exception passes through the connection context manager —
which rolls the transaction back — and is not caught by `except Error`. -/
def runDb1 {ρ : Type} (env : PEnv) (db : Db1 ρ)
    (body : DbConfig → List String → List ρ → Int → Except PyErr String) :
    Except PyErr String × List ConnEvent :=
  match get_db_config env with
  | .error e => (.error e, [])
  | .ok cfg =>
    match db.connect with
    | some m => (.error (.runtimeError ("Database error: " ++ m)), [.connect])
    | none =>
      match db.exec with
      | .err m =>
          (.error (.runtimeError ("Database error: " ++ m)),
           [.connect, .rollback])
      | .ok cols rows rc =>
        match body cfg cols rows rc with
        | .ok s => (.ok s, [.connect, .commit])
        | .error e => (.error e, [.connect, .rollback])

/-- Resource `opengauss://schemas` — `get_schemas` (src/server.py lines
43-58): fetches the schema-name rows (1-tuples, so each row is its first
element) and returns `", ".join(["Schemas in database {db}:"] + names)` —
note the header is an element of the joined list, so a `", "` separator
lands between the header's colon and the first schema name. -/
def get_schemas (env : PEnv) (db : Db1 String) :
    Except PyErr String × List ConnEvent :=
  runDb1 env db (fun cfg _ rows _ =>
    .ok (joinWith ", "
      (("Schemas in database " ++ cfg.dbname ++ ":") :: rows)))

/-- Resource `opengauss://tables` — `get_tables` (src/server.py lines
66-81): rows are (schemaname, tablename) 2-tuples, rendered
`f"{tab[0]}.{tab[1]}"`, joined with `", "` after the header element. -/
def get_tables (env : PEnv) (db : Db1 (String × String)) :
    Except PyErr String × List ConnEvent :=
  runDb1 env db (fun cfg _ rows _ =>
    .ok (joinWith ", "
      (("Tables in database " ++ cfg.dbname ++ ":") ::
        rows.map (fun t => t.1 ++ "." ++ t.2))))

/-- The per-table loop body of `get_table_definitions` (src/server.py lines
100-108): for each table name run the column query; a driver error aborts
the loop (and the handler re-raises), otherwise each table contributes a
newline-joined block of header + column lines. -/
def defsBlocks (execCols : String → DbResp ColDef) :
    List String → Except String (List String)
  | [] => .ok []
  | t :: ts =>
    match execCols t with
    | .err m => .error m
    | .ok _ rows _ =>
      match defsBlocks execCols ts with
      | .error m => .error m
      | .ok rest =>
          .ok ((joinWith "\n"
            (("Definition of table " ++ t ++ ":") :: colHeader ::
              rows.map colDefLine)) :: rest)

/-- Resource `opengauss://table_definitions` — `get_table_definitions`
(src/server.py lines 89-112): lists the tables of the current schema
(1-tuple rows), builds one block per table, joins the blocks with
newlines; any driver error is re-raised as
`RuntimeError("Database error: ...")`. -/
def get_table_definitions (env : PEnv) (db : DbDefs) :
    Except PyErr String × List ConnEvent :=
  match get_db_config env with
  | .error e => (.error e, [])
  | .ok _ =>
    match db.connect with
    | some m => (.error (.runtimeError ("Database error: " ++ m)), [.connect])
    | none =>
      match db.execTables with
      | .err m =>
          (.error (.runtimeError ("Database error: " ++ m)),
           [.connect, .rollback])
      | .ok _ tables _ =>
        match defsBlocks db.execCols tables with
        | .error m =>
            (.error (.runtimeError ("Database error: " ++ m)),
             [.connect, .rollback])
        | .ok blocks =>
            (.ok (joinWith "\n" blocks), [.connect, .commit])

/-- Tool `execute_query` (src/server.py lines 115-139).  Rows are tuples of
arbitrary arity (`List String` of `str()` images).  If the stripped,
upper-cased query text starts with the characters `SELECT`, the result is
the comma-joined column header followed by the comma-joined rows; otherwise
`conn.commit()` runs (and the context-manager exit commits again) and the
rows-affected message is returned.  Any `psycopg2.Error` — from `connect`
or from execution — is caught and RETURNED as an
`"Error executing query: ..."` string, never raised. -/
def execute_query (env : PEnv) (query : String) (db : Db1 (List String)) :
    Except PyErr String × List ConnEvent :=
  match get_db_config env with
  | .error e => (.error e, [])
  | .ok _ =>
    match db.connect with
    | some m => (.ok ("Error executing query: " ++ m), [.connect])
    | none =>
      match db.exec with
      | .err m =>
          (.ok ("Error executing query: " ++ m), [.connect, .rollback])
      | .ok cols rows rc =>
        if pyStartsWith (pyUpper (pyStrip query)) "SELECT" then
          (.ok (joinWith "\n" (commaJoin cols :: rows.map commaJoin)),
           [.connect, .commit])
        else
          (.ok ("Query executed successfully. Rows affected: " ++ toString rc),
           [.connect, .commit, .commit])

/-- Tool `list_tables_in_current_schema` (src/server.py lines 142-157):
table-name rows (1-tuples), newline-joined after the literal header line. -/
def list_tables_in_current_schema (env : PEnv) (db : Db1 String) :
    Except PyErr String × List ConnEvent :=
  runDb1 env db (fun _ _ rows _ =>
    .ok (joinWith "\n" ("Tables in current schema:" :: rows)))

/-- Tool `get_table_definition` (src/server.py lines 160-178): column
metadata rows for one caller-named table and schema, formatted as the
`"Definition of table {table}:"` header, the column-name header row, and
one comma-joined line per column row. -/
def get_table_definition (env : PEnv) (table sch : String)
    (db : Db1 ColDef) : Except PyErr String × List ConnEvent :=
  runDb1 env db (fun _ _ rows _ =>
    .ok (joinWith "\n"
      (("Definition of table " ++ table ++ ":") :: colHeader ::
        rows.map colDefLine)))

/-- Tool `get_current_user_and_schema` (src/server.py lines 181-194):
`fetchone()` on the identity query; with no row `fetchone` yields `None`
and `rowdata[0]` raises `TypeError` (not caught by `except Error`). -/
def get_current_user_and_schema (env : PEnv) (db : Db1 (String × String)) :
    Except PyErr String × List ConnEvent :=
  runDb1 env db (fun _ _ rows _ =>
    match rows with
    | [] => .error (.typeError "NoneType object is not subscriptable")
    | r :: _ =>
        .ok ("current user is " ++ r.1 ++ ", current schema is " ++ r.2))

/-- The argument schema the protocol runtime derives for the
`get_table_definition` tool from its Python signature
`async def get_table_definition(table: str, sch: str)` (src/server.py line
160): two required string parameters, named `table` and `sch`. -/
def get_table_definition_params : List (String × String) :=
  [("table", "string"), ("sch", "string")]

/-- Modelled from the spec: the spec/claim phrase "the trimmed,
case-normalized query begins with the token SELECT" — `SELECT` as a whole
word, i.e. followed by end-of-string or a non-identifier character.
Clearly named spec-side predicate, to be compared with the source's plain
prefix test `query.strip().upper().startswith("SELECT")`. -/
def specBeginsWithTokenSELECT (q : String) : Bool :=
  let u := (pyUpper (pyStrip q)).data
  leadsWith "SELECT".data u &&
    (match u.drop 6 with
     | [] => true
     | c :: _ => !(c.isAlphanum || c == '_'))

/-- A complete, valid environment used as concrete input. -/
def envOK : PEnv := ⟨none, none, some "alice", some "pw", some "testdb"⟩

/-- The configuration `get_db_config` resolves from `envOK`. -/
def cfgOK : DbConfig := ⟨"localhost", 5432, "alice", "pw", "testdb"⟩

/-- An environment with `OPENGAUSS_USER` absent (password and dbname set). -/
def envMissingUser : PEnv := ⟨none, none, none, some "pw", some "db"⟩

/-- Driver behaviour: connection succeeds, one single-column row `("1",)`
under column name `a`, rowcount 1. -/
def dbOneRow : Db1 (List String) := ⟨none, .ok ["a"] [["1"]] 1⟩

/-- Driver behaviour for the schemas query: rows `public`, `alice`. -/
def dbSchemas : Db1 String := ⟨none, .ok ["schema_name"] ["public", "alice"] 2⟩

/-- Driver behaviour: the connection attempt raises `psycopg2.Error` with
message `boom`. -/
def dbConnFail (ρ : Type) : Db1 ρ := ⟨some "boom", .err "unreached"⟩

/-- Driver behaviour: connection succeeds, the statement raises
`psycopg2.Error` with message `boom`. -/
def dbExecFail (ρ : Type) : Db1 ρ := ⟨none, .err "boom"⟩

/-- Driver behaviour with an empty result set. -/
def dbEmpty (ρ : Type) : Db1 ρ := ⟨none, .ok ["c"] [] 0⟩

/-- `get_table_definitions` driver behaviour that fails at the table list. -/
def dbDefsFail : DbDefs := ⟨none, .err "boom", fun _ => .err "unreached"⟩

/-- A concrete column row for witness inputs. -/
def colX : ColDef := ⟨"x", "integer", "None", "YES", "1"⟩

/-- Driver behaviour for `get_table_definition` with one column row. -/
def dbOneCol : Db1 ColDef := ⟨none, .ok [] [colX] 1⟩

/-- `get_table_definitions` driver behaviour for a schema with no tables. -/
def dbDefsEmpty : DbDefs := ⟨none, .ok ["tablename"] [] 0, fun _ => .err "unreached"⟩

/-- Driver behaviour for the identity query: one `(user, schema)` row. -/
def dbIdent : Db1 (String × String) := ⟨none, .ok [] [("alice", "public")] 1⟩

/-- Driver behaviour for the qualified-tables query: one `(schema, table)`
row. -/
def dbQualTables : Db1 (String × String) := ⟨none, .ok [] [("public", "t")] 1⟩

/-- Two strings joined by `joinWith` with one separator. -/
lemma joinWith_pair (s a b : String) :
    joinWith s [a, b] = a ++ s ++ b := rfl

/-- A one-element list is returned unchanged by `joinWith`. -/
lemma joinWith_singleton (s a : String) :
    joinWith s [a] = a := rfl

/-- Two `Db1` driver behaviours with the same connect outcome and the same
statement outcome are equal. -/
lemma db1Ext {ρ : Type} (a b : Db1 ρ) (h1 : a.connect = b.connect)
    (h2 : a.exec = b.exec) : a = b := by
  cases a
  cases b
  rw [Db1.mk.injEq]
  exact ⟨h1, h2⟩

/-- Two `DbDefs` driver behaviours with the same outcomes are equal. -/
lemma dbDefsExt (a b : DbDefs) (h1 : a.connect = b.connect)
    (h2 : a.execTables = b.execTables) (h3 : a.execCols = b.execCols) :
    a = b := by
  cases a
  cases b
  rw [DbDefs.mk.injEq]
  exact ⟨h1, h2, h3⟩

/-- When the driver reports an error at connect time or at execution time,
the shared handler template raises `RuntimeError` wrapping the driver
message, and the result carries no content. -/
lemma runDb1_err {ρ : Type} (env : PEnv) (cfg : DbConfig) (m : String)
    (db : Db1 ρ)
    (body : DbConfig → List String → List ρ → Int → Except PyErr String)
    (hcfg : get_db_config env = .ok cfg)
    (herr : db.connect = some m ∨ (db.connect = none ∧ db.exec = .err m)) :
    (runDb1 env db body).1 =
      .error (.runtimeError ("Database error: " ++ m)) := by
  rcases herr with h | h
  · simp [runDb1, hcfg, h]
  · simp [runDb1, hcfg, h.1, h.2]

/-- The shared handler template never emits a `close` event: the psycopg2
connection context manager commits or rolls back but does not close, and
no handler calls `conn.close()`. -/
lemma runDb1_count_close {ρ : Type} (env : PEnv) (db : Db1 ρ)
    (body : DbConfig → List String → List ρ → Int → Except PyErr String) :
    ((runDb1 env db body).2).count ConnEvent.close = 0 := by
  rcases hc : get_db_config env with e | cfg
  · simp only [runDb1, hc]
    rfl
  · rcases hn : db.connect with _ | m
    · rcases he : db.exec with ⟨cols, rows, rc⟩ | m
      · rcases hb : body cfg cols rows rc with s | e
        · simp only [runDb1, hc, hn, he, hb]
          rfl
        · simp only [runDb1, hc, hn, he, hb]
          rfl
      · simp only [runDb1, hc, hn, he]
        rfl
    · simp only [runDb1, hc, hn]
      rfl

/-- `execute_query` never emits a `close` event on any path. -/
lemma execute_query_count_close (env : PEnv) (q : String)
    (db : Db1 (List String)) :
    ((execute_query env q db).2).count ConnEvent.close = 0 := by
  rcases hc : get_db_config env with e | cfg
  · simp only [execute_query, hc]
    rfl
  · rcases hn : db.connect with _ | m
    · rcases he : db.exec with ⟨cols, rows, rc⟩ | m
      · simp only [execute_query, hc, hn, he]
        split
        · rfl
        · rfl
      · simp only [execute_query, hc, hn, he]
        rfl
    · simp only [execute_query, hc, hn]
      rfl

/-- `get_table_definitions` never emits a `close` event on any path. -/
lemma get_table_definitions_count_close (env : PEnv) (db : DbDefs) :
    ((get_table_definitions env db).2).count ConnEvent.close = 0 := by
  rcases hc : get_db_config env with e | cfg
  · simp only [get_table_definitions, hc]
    rfl
  · rcases hn : db.connect with _ | m
    · rcases ht : db.execTables with ⟨cols, tables, rc⟩ | m
      · rcases hd : defsBlocks db.execCols tables with m | blocks
        · simp only [get_table_definitions, hc, hn, ht, hd]
          rfl
        · simp only [get_table_definitions, hc, hn, ht, hd]
          rfl
      · simp only [get_table_definitions, hc, hn, ht]
        rfl
    · simp only [get_table_definitions, hc, hn]
      rfl

/-- C1 counterexample: the source decides the branch with
`query.strip().upper().startswith("SELECT")`, a PREFIX test.  The query
`"selectx"` does not begin with the TOKEN `SELECT` (its first token is
`SELECTX`), so by the claim it should take the non-SELECT branch and
return the rows-affected message; the code instead takes the SELECT branch
and returns the header/rows rendering. -/
theorem C1_counterexample :
    specBeginsWithTokenSELECT "selectx" = false ∧
    (execute_query envOK "selectx" dbOneRow).1 = .ok "a\n1" ∧
    (execute_query envOK "selectx" dbOneRow).1 ≠
      .ok "Query executed successfully. Rows affected: 1" := by decide

/-- C1 (amended): for every `execute_query(query)` call that reaches
execution without a driver error, if the trimmed, upper-cased query begins
with the PREFIX `SELECT` the result is the comma-joined column-name header
row followed by one comma-joined line per result row, in database order;
otherwise the transaction is committed and the result is exactly
`"Query executed successfully. Rows affected: {n}"` with `n` the driver's
affected-row count. -/
theorem C1_amended (env : PEnv) (cfg : DbConfig) (q : String)
    (db : Db1 (List String)) (cols : List String)
    (rows : List (List String)) (rc : Int)
    (hcfg : get_db_config env = .ok cfg) (hconn : db.connect = none)
    (hexec : db.exec = .ok cols rows rc) :
    execute_query env q db =
      if pyStartsWith (pyUpper (pyStrip q)) "SELECT" then
        (.ok (joinWith "\n" (commaJoin cols :: rows.map commaJoin)),
         [ConnEvent.connect, ConnEvent.commit])
      else
        (.ok ("Query executed successfully. Rows affected: " ++ toString rc),
         [ConnEvent.connect, ConnEvent.commit, ConnEvent.commit]) := by
  simp only [execute_query, hcfg, hconn, hexec]

/-- C1 witness: a concrete SELECT call. -/
theorem C1_amended_witness :
    execute_query envOK "SELECT 1" dbOneRow =
      (.ok "a\n1", [ConnEvent.connect, ConnEvent.commit]) := by
  have h := C1_amended envOK cfgOK "SELECT 1" dbOneRow ["a"] [["1"]] 1
    (by decide) rfl rfl
  rw [h]
  decide

/-- C2 counterexample: with the user variable absent the operation does
fail before any connection attempt (empty event trace), but the
`ValueError` message is `"Missing required database configuration"` with a
capital M — not the claimed exact message
`"missing required database configuration"`. -/
theorem C2_counterexample :
    execute_query envMissingUser "SELECT 1" dbOneRow =
      (.error (.valueError "Missing required database configuration"), []) ∧
    "Missing required database configuration" ≠
      "missing required database configuration" := by decide

/-- C2 (amended): for every operation, if any of user, password or database
name is absent or empty in the environment at the moment of the call — and
the port variable, when set, parses as an integer (the source runs
`int(port)` while building the dict, before the completeness check) — the
operation fails with `ValueError` carrying the message
`"Missing required database configuration"` (capital M), and the failure
occurs before any database connection attempt (the connection-event trace
is empty). -/
theorem C2_amended (env : PEnv) (q t s : String)
    (dbq : Db1 (List String)) (dbs : Db1 String)
    (dbt : Db1 (String × String)) (dbl : Db1 String) (dbd : Db1 ColDef)
    (dbu : Db1 (String × String)) (dba : DbDefs)
    (hport : pyIntParse (env.opengauss_port.getD "5432") ≠ none)
    (hmiss : truthy env.opengauss_user = false ∨
             truthy env.opengauss_password = false ∨
             truthy env.opengauss_dbname = false) :
    get_db_config env =
      .error (.valueError "Missing required database configuration") ∧
    execute_query env q dbq =
      (.error (.valueError "Missing required database configuration"), []) ∧
    get_schemas env dbs =
      (.error (.valueError "Missing required database configuration"), []) ∧
    get_tables env dbt =
      (.error (.valueError "Missing required database configuration"), []) ∧
    get_table_definitions env dba =
      (.error (.valueError "Missing required database configuration"), []) ∧
    list_tables_in_current_schema env dbl =
      (.error (.valueError "Missing required database configuration"), []) ∧
    get_table_definition env t s dbd =
      (.error (.valueError "Missing required database configuration"), []) ∧
    get_current_user_and_schema env dbu =
      (.error (.valueError "Missing required database configuration"), []) := by
  have hcfg : get_db_config env =
      .error (.valueError "Missing required database configuration") := by
    obtain ⟨p, hp⟩ : ∃ p, pyIntParse (env.opengauss_port.getD "5432") = some p := by
      cases h : pyIntParse (env.opengauss_port.getD "5432")
      · exact absurd h hport
      · exact ⟨_, rfl⟩
    unfold get_db_config
    rw [hp]
    rcases hmiss with h | h | h <;> simp [h]
  refine ⟨hcfg, ?_, ?_, ?_, ?_, ?_, ?_, ?_⟩ <;>
    simp [execute_query, get_schemas, get_tables, get_table_definitions,
      list_tables_in_current_schema, get_table_definition,
      get_current_user_and_schema, runDb1, hcfg]

/-- C2 witness: the user variable absent, everything else well formed. -/
theorem C2_amended_witness :
    get_db_config envMissingUser =
      .error (.valueError "Missing required database configuration") ∧
    list_tables_in_current_schema envMissingUser (dbEmpty String) =
      (.error (.valueError "Missing required database configuration"), []) := by
  have h := C2_amended envMissingUser "SELECT 1" "t" "public" dbOneRow
    dbSchemas dbQualTables (dbEmpty String) dbOneCol dbIdent dbDefsFail
    (by decide) (by decide)
  exact ⟨h.1, h.2.2.2.2.2.1⟩

/-- C3: for every query and every driver-reported error while connecting
or executing it, `execute_query` does not raise: the result is the
returned string `"Error executing query: {message}"` carrying the original
driver message. -/
theorem C3_theorem (env : PEnv) (cfg : DbConfig) (q m : String)
    (db : Db1 (List String)) (hcfg : get_db_config env = .ok cfg)
    (herr : db.connect = some m ∨ (db.connect = none ∧ db.exec = .err m)) :
    (execute_query env q db).1 = .ok ("Error executing query: " ++ m) := by
  rcases herr with h | h
  · simp [execute_query, hcfg, h]
  · simp [execute_query, hcfg, h.1, h.2]

/-- C3 witness: a failing connection attempt is reflected as a returned
error string. -/
theorem C3_witness :
    (execute_query envOK "SELECT 1" (dbConnFail (List String))).1 =
      .ok "Error executing query: boom" := by
  have h := C3_theorem envOK cfgOK "SELECT 1" "boom"
    (dbConnFail (List String)) (by decide) (Or.inl rfl)
  exact h.trans (by decide)

/-- C4: the source never closes a connection.  Every handler acquires its
connection with `with connect(**config) as conn:`; psycopg2's connection
context manager commits (normal exit) or rolls back (exception) the
transaction but leaves the connection open, and no handler calls
`conn.close()`, so no exit path of any handler emits a `close` event — the
connection is reclaimed only by interpreter garbage collection after the
handler boundary.  The last conjunct evaluates the trace at a concrete
successful call: the connection is opened and committed, never closed. -/
theorem C4_theorem :
    (∀ (env : PEnv) (q : String) (db : Db1 (List String)),
      ((execute_query env q db).2).count ConnEvent.close = 0) ∧
    (∀ (env : PEnv) (db : Db1 String),
      ((get_schemas env db).2).count ConnEvent.close = 0) ∧
    (∀ (env : PEnv) (db : Db1 (String × String)),
      ((get_tables env db).2).count ConnEvent.close = 0) ∧
    (∀ (env : PEnv) (db : DbDefs),
      ((get_table_definitions env db).2).count ConnEvent.close = 0) ∧
    (∀ (env : PEnv) (db : Db1 String),
      ((list_tables_in_current_schema env db).2).count ConnEvent.close = 0) ∧
    (∀ (env : PEnv) (t s : String) (db : Db1 ColDef),
      ((get_table_definition env t s db).2).count ConnEvent.close = 0) ∧
    (∀ (env : PEnv) (db : Db1 (String × String)),
      ((get_current_user_and_schema env db).2).count ConnEvent.close = 0) ∧
    (execute_query envOK "SELECT 1" dbOneRow).2 =
      [ConnEvent.connect, ConnEvent.commit] := by
  refine ⟨execute_query_count_close, ?_, ?_,
    get_table_definitions_count_close, ?_, ?_, ?_, by decide⟩
  · intro env db
    exact runDb1_count_close env db _
  · intro env db
    exact runDb1_count_close env db _
  · intro env db
    exact runDb1_count_close env db _
  · intro env t s db
    exact runDb1_count_close env db _
  · intro env db
    exact runDb1_count_close env db _

/-- C5: for every driver-reported failure during connection or execution —
in the resource reads (`get_schemas`, `get_tables`,
`get_table_definitions`), in both table-definition operations, in
`list_tables_in_current_schema`, and in `get_current_user_and_schema` —
the handler raises `RuntimeError` (the realization of the spec's
`DatabaseError`) whose message wraps the original driver message as
`"Database error: {message}"`; the result is an error, so no partial
content string is returned alongside it. -/
theorem C5_theorem (env : PEnv) (cfg : DbConfig) (m t s : String)
    (dbs : Db1 String) (dbt : Db1 (String × String)) (dbl : Db1 String)
    (dbd : Db1 ColDef) (dbu : Db1 (String × String)) (dba : DbDefs)
    (hcfg : get_db_config env = .ok cfg)
    (hs : dbs.connect = some m ∨ (dbs.connect = none ∧ dbs.exec = .err m))
    (ht : dbt.connect = some m ∨ (dbt.connect = none ∧ dbt.exec = .err m))
    (hl : dbl.connect = some m ∨ (dbl.connect = none ∧ dbl.exec = .err m))
    (hd : dbd.connect = some m ∨ (dbd.connect = none ∧ dbd.exec = .err m))
    (hu : dbu.connect = some m ∨ (dbu.connect = none ∧ dbu.exec = .err m))
    (ha : dba.connect = some m ∨
      (dba.connect = none ∧ (dba.execTables = .err m ∨
        ∃ cols tables rc, dba.execTables = .ok cols tables rc ∧
          defsBlocks dba.execCols tables = .error m))) :
    (get_schemas env dbs).1 =
      .error (.runtimeError ("Database error: " ++ m)) ∧
    (get_tables env dbt).1 =
      .error (.runtimeError ("Database error: " ++ m)) ∧
    (get_table_definitions env dba).1 =
      .error (.runtimeError ("Database error: " ++ m)) ∧
    (list_tables_in_current_schema env dbl).1 =
      .error (.runtimeError ("Database error: " ++ m)) ∧
    (get_table_definition env t s dbd).1 =
      .error (.runtimeError ("Database error: " ++ m)) ∧
    (get_current_user_and_schema env dbu).1 =
      .error (.runtimeError ("Database error: " ++ m)) := by
  refine ⟨runDb1_err env cfg m dbs _ hcfg hs, runDb1_err env cfg m dbt _ hcfg ht,
    ?_, runDb1_err env cfg m dbl _ hcfg hl, runDb1_err env cfg m dbd _ hcfg hd,
    runDb1_err env cfg m dbu _ hcfg hu⟩
  rcases ha with h | ⟨h1, h2 | ⟨cols, tables, rc, h2, h3⟩⟩
  · simp [get_table_definitions, hcfg, h]
  · simp [get_table_definitions, hcfg, h1, h2]
  · simp [get_table_definitions, hcfg, h1, h2, h3]

/-- C5 witness: every handler with a failing statement (or, for the
all-definitions resource, a failing table-list query) wraps the driver
message `boom`. -/
theorem C5_witness :
    (get_schemas envOK (dbExecFail String)).1 =
      .error (.runtimeError ("Database error: " ++ "boom")) ∧
    (get_tables envOK (dbExecFail (String × String))).1 =
      .error (.runtimeError ("Database error: " ++ "boom")) ∧
    (get_table_definitions envOK dbDefsFail).1 =
      .error (.runtimeError ("Database error: " ++ "boom")) ∧
    (list_tables_in_current_schema envOK (dbExecFail String)).1 =
      .error (.runtimeError ("Database error: " ++ "boom")) ∧
    (get_table_definition envOK "t" "public" (dbExecFail ColDef)).1 =
      .error (.runtimeError ("Database error: " ++ "boom")) ∧
    (get_current_user_and_schema envOK (dbExecFail (String × String))).1 =
      .error (.runtimeError ("Database error: " ++ "boom")) :=
  C5_theorem envOK cfgOK "boom" "t" "public" (dbExecFail String)
    (dbExecFail (String × String)) (dbExecFail String) (dbExecFail ColDef)
    (dbExecFail (String × String)) dbDefsFail (by decide)
    (Or.inr ⟨rfl, rfl⟩) (Or.inr ⟨rfl, rfl⟩) (Or.inr ⟨rfl, rfl⟩)
    (Or.inr ⟨rfl, rfl⟩) (Or.inr ⟨rfl, rfl⟩) (Or.inr ⟨rfl, Or.inl rfl⟩)

/-- C6 counterexample: the source joins the header and the schema names
with `", ".join(...)`, so a comma-space separator — not a lone space —
stands between the header's colon and the first schema name.  With
database `testdb` and schemas `public`, `alice` the result is
`"Schemas in database testdb:, public, alice"`, not the claimed
`"Schemas in database testdb: public, alice"`. -/
theorem C6_counterexample :
    (get_schemas envOK dbSchemas).1 =
      .ok "Schemas in database testdb:, public, alice" ∧
    (get_schemas envOK dbSchemas).1 ≠
      .ok "Schemas in database testdb: public, alice" := by decide

/-- C6 (amended): every successful `get_schemas` read returns the header
`"Schemas in database {db}:"` and the schema names, all joined by `", "` —
i.e. `"Schemas in database {db}:, {sch1}, {sch2}, ..."`, with a
comma-space (not a bare space) after the header's colon. -/
theorem C6_amended (env : PEnv) (cfg : DbConfig) (db : Db1 String)
    (cols : List String) (rows : List String) (rc : Int)
    (hcfg : get_db_config env = .ok cfg) (hconn : db.connect = none)
    (hexec : db.exec = .ok cols rows rc) :
    (get_schemas env db).1 =
      .ok (joinWith ", "
        (("Schemas in database " ++ cfg.dbname ++ ":") :: rows)) := by
  simp [get_schemas, runDb1, hcfg, hconn, hexec]

/-- C6 witness: the concrete schema listing. -/
theorem C6_amended_witness :
    (get_schemas envOK dbSchemas).1 =
      .ok "Schemas in database testdb:, public, alice" := by
  have h := C6_amended envOK cfgOK dbSchemas ["schema_name"]
    ["public", "alice"] 2 (by decide) rfl rfl
  exact h.trans (by decide)

/-- C7 counterexample: the Python signature is
`get_table_definition(table: str, sch: str)` — the second required input
the protocol runtime exposes is named `sch`, not `schema` as the claim
states. -/
theorem C7_counterexample :
    get_table_definition_params.map Prod.fst = ["table", "sch"] ∧
    get_table_definition_params.map Prod.fst ≠ ["table", "schema"] := by decide

/-- C7 (amended): the `get_table_definition` tool accepts exactly two
required string inputs named `table` and `sch`, and for a valid pair
returns the single-table column-block format: the
`"Definition of table {name}:"` header, then the column-name header row,
then one comma-joined line per column row. -/
theorem C7_amended (env : PEnv) (cfg : DbConfig) (t s : String)
    (db : Db1 ColDef) (cols : List String) (rows : List ColDef) (rc : Int)
    (hcfg : get_db_config env = .ok cfg) (hconn : db.connect = none)
    (hexec : db.exec = .ok cols rows rc) :
    get_table_definition_params = [("table", "string"), ("sch", "string")] ∧
    (get_table_definition env t s db).1 =
      .ok (joinWith "\n"
        (("Definition of table " ++ t ++ ":") :: colHeader ::
          rows.map colDefLine)) := by
  refine ⟨rfl, ?_⟩
  simp [get_table_definition, runDb1, hcfg, hconn, hexec]

/-- C7 witness: one column row for table `t`. -/
theorem C7_amended_witness :
    get_table_definition_params = [("table", "string"), ("sch", "string")] ∧
    (get_table_definition envOK "t" "public" dbOneCol).1 =
      .ok "Definition of table t:\ncolumn_name, data_type, column_default, is_nullable, ordinal_position\nx,integer,None,YES,1" := by
  have h := C7_amended envOK cfgOK "t" "public" dbOneCol [] [colX] 1
    (by decide) rfl rfl
  exact ⟨h.1, h.2.trans (by decide)⟩

/-- C8: for every valid configuration whose current schema contains no
tables (the table-list query returns zero rows),
`list_tables_in_current_schema` returns exactly the single header line
`"Tables in current schema:"` with no table lines after it. -/
theorem C8_theorem (env : PEnv) (cfg : DbConfig) (db : Db1 String)
    (cols : List String) (rc : Int)
    (hcfg : get_db_config env = .ok cfg) (hconn : db.connect = none)
    (hexec : db.exec = .ok cols [] rc) :
    (list_tables_in_current_schema env db).1 =
      .ok "Tables in current schema:" := by
  simp [list_tables_in_current_schema, runDb1, hcfg, hconn, hexec,
    joinWith_singleton]

/-- C8 witness: a concrete empty table list. -/
theorem C8_theorem_witness :
    (list_tables_in_current_schema envOK (dbEmpty String)).1 =
      .ok "Tables in current schema:" :=
  C8_theorem envOK cfgOK (dbEmpty String) ["c"] 0 (by decide) rfl rfl

/-- C9: the read-only handlers are pure functions of the environment and
the driver responses, and they preserve database row order.  Two
invocations of any of the six read-only operations against the same
environment and driver responses (same connect outcome, same
columns/rows/rowcount in the same order) yield identical results —
byte-identical output strings and identical event traces; and, on
success, the output of the two cited handlers is the header followed by
one line per row taken from the response rows in database order (no
client-side re-sorting). -/
theorem C9_theorem (env : PEnv) (t s : String)
    (a b : Db1 String) (c d : Db1 (String × String)) (e f : Db1 String)
    (g h : Db1 ColDef) (i j : Db1 (String × String)) (k l : DbDefs)
    (h1 : a.connect = b.connect) (h2 : a.exec = b.exec)
    (h3 : c.connect = d.connect) (h4 : c.exec = d.exec)
    (h5 : e.connect = f.connect) (h6 : e.exec = f.exec)
    (h7 : g.connect = h.connect) (h8 : g.exec = h.exec)
    (h9 : i.connect = j.connect) (h10 : i.exec = j.exec)
    (h11 : k.connect = l.connect) (h12 : k.execTables = l.execTables)
    (h13 : k.execCols = l.execCols) :
    get_schemas env a = get_schemas env b ∧
    get_tables env c = get_tables env d ∧
    list_tables_in_current_schema env e = list_tables_in_current_schema env f ∧
    get_table_definition env t s g = get_table_definition env t s h ∧
    get_current_user_and_schema env i = get_current_user_and_schema env j ∧
    get_table_definitions env k = get_table_definitions env l ∧
    (∀ cfg cols rows rc, get_db_config env = .ok cfg → e.connect = none →
      e.exec = .ok cols rows rc →
      (list_tables_in_current_schema env e).1 =
        .ok (joinWith "\n" ("Tables in current schema:" :: rows))) ∧
    (∀ cfg cols rows rc, get_db_config env = .ok cfg → g.connect = none →
      g.exec = .ok cols rows rc →
      (get_table_definition env t s g).1 =
        .ok (joinWith "\n"
          (("Definition of table " ++ t ++ ":") :: colHeader ::
            rows.map colDefLine))) := by
  obtain rfl : a = b := db1Ext a b h1 h2
  obtain rfl : c = d := db1Ext c d h3 h4
  obtain rfl : e = f := db1Ext e f h5 h6
  obtain rfl : g = h := db1Ext g h h7 h8
  obtain rfl : i = j := db1Ext i j h9 h10
  obtain rfl : k = l := dbDefsExt k l h11 h12 h13
  refine ⟨rfl, rfl, rfl, rfl, rfl, rfl, ?_, ?_⟩
  · intro cfg cols rows rc hcfg hconn hexec
    simp [list_tables_in_current_schema, runDb1, hcfg, hconn, hexec]
  · intro cfg cols rows rc hcfg hconn hexec
    simp [get_table_definition, runDb1, hcfg, hconn, hexec]

/-- C9 witness: concrete repeated reads and the two success-shape
conjuncts evaluated on concrete responses. -/
theorem C9_theorem_witness :
    get_schemas envOK dbSchemas = get_schemas envOK dbSchemas ∧
    (list_tables_in_current_schema envOK (dbEmpty String)).1 =
      .ok "Tables in current schema:" ∧
    (get_table_definition envOK "t" "public" dbOneCol).1 =
      .ok "Definition of table t:\ncolumn_name, data_type, column_default, is_nullable, ordinal_position\nx,integer,None,YES,1" := by
  have h := C9_theorem envOK "t" "public" dbSchemas dbSchemas dbQualTables
    dbQualTables (dbEmpty String) (dbEmpty String) dbOneCol dbOneCol dbIdent
    dbIdent dbDefsEmpty dbDefsEmpty rfl rfl rfl rfl rfl rfl rfl rfl rfl rfl
    rfl rfl rfl
  refine ⟨h.1, ?_, ?_⟩
  · exact (h.2.2.2.2.2.2.1 cfgOK ["c"] [] 0 (by decide) rfl rfl).trans
      (by decide)
  · exact (h.2.2.2.2.2.2.2 cfgOK [] [colX] 1 (by decide) rfl rfl).trans
      (by decide)

/-- C10: for every table/schema pair for which the column query returns
zero rows (e.g. a nonexistent table), `get_table_definition` does not
raise: it returns the two-line block `"Definition of table {table}:"`
followed by the column-name header row, with zero column lines. -/
theorem C10_theorem (env : PEnv) (cfg : DbConfig) (t s : String)
    (db : Db1 ColDef) (cols : List String) (rc : Int)
    (hcfg : get_db_config env = .ok cfg) (hconn : db.connect = none)
    (hexec : db.exec = .ok cols [] rc) :
    (get_table_definition env t s db).1 =
      .ok (("Definition of table " ++ t ++ ":") ++ "\n" ++ colHeader) := by
  simp [get_table_definition, runDb1, hcfg, hconn, hexec, joinWith_pair]

/-- C10 witness: a nonexistent table name yields the two-line block. -/
theorem C10_theorem_witness :
    (get_table_definition envOK "missing" "public" (dbEmpty ColDef)).1 =
      .ok "Definition of table missing:\ncolumn_name, data_type, column_default, is_nullable, ordinal_position" := by
  have h := C10_theorem envOK cfgOK "missing" "public" (dbEmpty ColDef)
    ["c"] 0 (by decide) rfl rfl
  exact h.trans (by decide)
